import Mathlib

/-!
# PAF (Physical Attack Framework) — fault-injection campaign model

A shallow embedding, in Lean 4, of the fault-injection campaign data model and
operations of the PAF repository:

* `tools/run-model/FI/faultcampaign.py` — campaign data model (`Fault`,
  `BreakpointInfo`, `InjectionRangeInfo`, `Classification`,
  `ClassificationExpr`, `Classifier`, `Oracle`, `FaultInjectionCampaign`);
* `tools/run-model/campaign.py` — campaign maintenance CLI;
* `tools/run-model/PAF/run_model.py` — the fault-injection drivers
  (`IrisDriver` memory accessors, `InstructionSkipDriver.inject`, the
  fallback classification at the end of `FaultInjectionBaseDriver.runModel`).

Python `die(...)` (which prints and exits the process) and raised exceptions
are both modelled as `Except.error`; machine integers are `Int` (Python ints
are unbounded); YAML mappings already parsed into typed records stand in for
the `yaml.safe_load` output where the loader only inspects well-typed fields.
-/

namespace PAF

/-- `BreakpointInfo` (faultcampaign.py:269-291): the address at which a fault
is injected and how many prior hits of that address are ignored first. -/
structure BreakpointInfo where
  Address : Int
  Count : Int
deriving DecidableEq, Repr

/-- `InjectionRangeInfo` (faultcampaign.py:213-267): a function's temporal and
address window. -/
structure InjectionRangeInfo where
  Name : String
  StartTime : Int
  EndTime : Int
  StartAddress : Int
  EndAddress : Int
deriving DecidableEq, Repr

/-- `InjectionRangeInfo.isInCallTree` (faultcampaign.py:259-262):
`self.StartAddress <= pc and pc <= self.EndAddress` (only the top-level
window is checked, per the TODO in the source). -/
def InjectionRangeInfo.isInCallTree (r : InjectionRangeInfo) (pc : Int) : Bool :=
  decide (r.StartAddress ≤ pc) && decide (pc ≤ r.EndAddress)

/-- The variant-specific payload of a fault: `InstructionSkip`
(faultcampaign.py:379-397) or `CorruptRegDef` (faultcampaign.py:399-412). -/
inductive FaultVariant where
  | instructionSkip (Executed : Int) (FaultedInstr : Int)
  | corruptRegDef (FaultedReg : String)
deriving DecidableEq, Repr

/-- `Fault` (faultcampaign.py:293-377) with the variant payload inlined.
`Effect` is `none` while unset (Python `None`). -/
structure Fault where
  Id : Int
  Time : Int
  Address : Int
  Width : Int
  BPInfo : BreakpointInfo
  Instruction : Int
  Disassembly : String
  Effect : Option String
  Variant : FaultVariant
deriving DecidableEq, Repr

/-- `Fault.Effects` (faultcampaign.py:299). -/
def Fault.Effects : List String :=
  ["success", "crash", "noeffect", "caught", "undecided"]

/-- `Classification` (faultcampaign.py:139-152): holds only its `Kind`;
its `eval` unconditionally returns `True`. -/
structure Classification where
  Kind : String
deriving DecidableEq, Repr

/-- `Classification.eval` (faultcampaign.py:148-149): always `True`. -/
def Classification.eval (_C : Classification) : Bool :=
  true

/-- The classification term kinds accepted by `ClassificationExpr.__init__`
(faultcampaign.py:159). -/
def classificationKinds : List String :=
  ["noeffect", "success", "crash", "caught"]

/-- `ClassificationExpr.__init__` (faultcampaign.py:156-163): each input term
`C` is a pair of a kind `C[0]` and a list of checks `C[1]`; an unknown kind or
a non-empty check list is a fatal error (`die`).  The checks' type is left
abstract (`α`), since only their number is ever inspected. -/
def ClassificationExpr.init {α : Type} : List (String × List α) → Except String (List Classification)
  | [] => .ok []
  | C :: rest =>
    if C.1 ∉ classificationKinds then
      .error "is not a known Classification term"
    else if C.2.length ≠ 0 then
      .error "Checkers are not supported (yet) in Classifications."
    else
      match ClassificationExpr.init rest with
      | .ok cs => .ok (Classification.mk C.1 :: cs)
      | .error m => .error m

/-- `ClassificationExpr.eval` (faultcampaign.py:165-169): return the `Kind` of
the first classification whose `eval` holds, `"undecided"` otherwise. -/
def ClassificationExpr.eval : List Classification → String
  | [] => "undecided"
  | C :: rest => if C.eval then C.Kind else ClassificationExpr.eval rest

/-- `Classifier` (faultcampaign.py:177-194): a program-counter value bound to a
classification expression. -/
structure Classifier where
  Pc : Int
  ClassificationExpr : List Classification
deriving DecidableEq, Repr

/-- `Classifier.eval` (faultcampaign.py:188-189). -/
def Classifier.eval (C : Classifier) : String :=
  ClassificationExpr.eval C.ClassificationExpr

/-- The parsed-YAML form of one classifier entry, as consumed by
`Classifier.__init__` (faultcampaign.py:179-182). -/
structure ClassifierData (α : Type) where
  Pc : Int
  Classification : List (String × List α)

/-- `Classifier.__init__` (faultcampaign.py:179-182). -/
def Classifier.init {α : Type} (C : ClassifierData α) : Except String Classifier :=
  match ClassificationExpr.init C.Classification with
  | .ok cs => .ok { Pc := C.Pc, ClassificationExpr := cs }
  | .error m => .error m

/-- `Oracle.__init__` (faultcampaign.py:198-201): build each classifier in
order; the first failure aborts the whole load. -/
def Oracle.init {α : Type} : List (ClassifierData α) → Except String (List Classifier)
  | [] => .ok []
  | C :: rest =>
    match Classifier.init C with
    | .ok c =>
      match Oracle.init rest with
      | .ok cs => .ok (c :: cs)
      | .error m => .error m
    | .error m => .error m

/-- The parsed-YAML form of one fault record: the union of the fields read by
`Fault.__init__`, `InstructionSkip.__init__` and `CorruptRegDef.__init__`
(faultcampaign.py:301-315, 381-385, 401-404), with the variant-specific ones
optional (their presence is what `assertEntityContainsAllOf` enforces). -/
structure FaultData where
  Id : Int
  Time : Int
  Address : Int
  Width : Int
  Breakpoint : BreakpointInfo
  Instruction : Int
  Disassembly : String
  Effect : Option String
  Executed : Option Int
  FaultedInstr : Option Int
  FaultedReg : Option String

/-- The `Effect` validation of `Fault.__init__` (faultcampaign.py:311-315). -/
def Fault.checkEffect : Option String → Except String (Option String)
  | none => .ok none
  | some e =>
    if e ∈ Fault.Effects then .ok (some e)
    else .error "Unsuported fault effect"

/-- `Fault.get` (faultcampaign.py:363-369) composed with the variant
constructors: dispatch on the fault model, require the variant's fields, and
validate the optional `Effect`. -/
def Fault.get (FaultModel : String) (F : FaultData) : Except String Fault :=
  if FaultModel = "InstructionSkip" then
    match F.Executed, F.FaultedInstr with
    | some ex, some fi =>
      match Fault.checkEffect F.Effect with
      | .ok eff =>
        .ok { Id := F.Id, Time := F.Time, Address := F.Address, Width := F.Width,
              BPInfo := F.Breakpoint, Instruction := F.Instruction,
              Disassembly := F.Disassembly, Effect := eff,
              Variant := .instructionSkip ex fi }
      | .error m => .error m
    | _, _ => .error "InstructionSkip missing field"
  else if FaultModel = "CorruptRegDef" then
    match F.FaultedReg with
    | some r =>
      match Fault.checkEffect F.Effect with
      | .ok eff =>
        .ok { Id := F.Id, Time := F.Time, Address := F.Address, Width := F.Width,
              BPInfo := F.Breakpoint, Instruction := F.Instruction,
              Disassembly := F.Disassembly, Effect := eff,
              Variant := .corruptRegDef r }
      | .error m => .error m
    | none => .error "CorruptRegDef missing field"
  else .error "Unsupported fault model"

/-- `FaultInjectionCampaign` (faultcampaign.py:415-534): the aggregate root.
The `Filename` bookkeeping field is omitted (pure I/O). -/
structure FaultInjectionCampaign where
  Image : String
  ReferenceTrace : String
  MaxTraceTime : Int
  ProgramEntryAddress : Int
  ProgramEndAddress : Int
  FaultModel : String
  InjectionRangeInfo : List InjectionRangeInfo
  Oracle : List Classifier
  Campaign : List Fault
deriving DecidableEq, Repr

/-- The parsed-YAML form of a whole campaign file, as consumed by
`FaultInjectionCampaign.__init__` (faultcampaign.py:417-436):
`assertEntityContainsAllOf` guarantees the fields' presence, which the typed
record captures. -/
structure CampaignData (α : Type) where
  Image : String
  ReferenceTrace : String
  MaxTraceTime : Int
  ProgramEntryAddress : Int
  ProgramEndAddress : Int
  FaultModel : String
  InjectionRangeInfo : List InjectionRangeInfo
  Oracle : List (ClassifierData α)
  Campaign : List FaultData

/-- The `Campaign` loop of `FaultInjectionCampaign.__init__`
(faultcampaign.py:434-436). -/
def loadFaults (FaultModel : String) : List FaultData → Except String (List Fault)
  | [] => .ok []
  | F :: rest =>
    match Fault.get FaultModel F with
    | .ok f =>
      match loadFaults FaultModel rest with
      | .ok fs => .ok (f :: fs)
      | .error m => .error m
    | .error m => .error m

/-- `FaultInjectionCampaign.__init__` (faultcampaign.py:417-436), from the
parsed document: validate the fault model, build the injection ranges (their
fields are already typed), the oracle and the fault list, in source order. -/
def FaultInjectionCampaign.load {α : Type} (y : CampaignData α) :
    Except String FaultInjectionCampaign :=
  if y.FaultModel ∉ ["InstructionSkip", "CorruptRegDef"] then
    .error "Unsupported fault model in campaign file"
  else
    match Oracle.init y.Oracle with
    | .error m => .error m
    | .ok oracle =>
      match loadFaults y.FaultModel y.Campaign with
      | .error m => .error m
      | .ok faults =>
        .ok { Image := y.Image, ReferenceTrace := y.ReferenceTrace,
              MaxTraceTime := y.MaxTraceTime,
              ProgramEntryAddress := y.ProgramEntryAddress,
              ProgramEndAddress := y.ProgramEndAddress,
              FaultModel := y.FaultModel,
              InjectionRangeInfo := y.InjectionRangeInfo,
              Oracle := oracle, Campaign := faults }

/-- `FaultInjectionCampaign.getNumFaults` (faultcampaign.py:474-475). -/
def FaultInjectionCampaign.getNumFaults (c : FaultInjectionCampaign) : Nat :=
  c.Campaign.length

/-- `FaultInjectionCampaign.getFault` (faultcampaign.py:477-478):
`return self.__Campaign[Id]` — the argument is used as a POSITION into the
`Campaign` list, not matched against the faults' `Id` fields.  An
out-of-range index raises `IndexError`, modelled by `none`. -/
def FaultInjectionCampaign.getFault (c : FaultInjectionCampaign) (Id : Nat) : Option Fault :=
  c.Campaign.get? Id

/-- `FaultInjectionCampaign.offsetAllFaultsTimeBy` (faultcampaign.py:487-493). -/
def FaultInjectionCampaign.offsetAllFaultsTimeBy
    (c : FaultInjectionCampaign) (offset : Int) : FaultInjectionCampaign :=
  { c with
    InjectionRangeInfo := c.InjectionRangeInfo.map fun fi =>
      { fi with StartTime := fi.StartTime + offset, EndTime := fi.EndTime + offset },
    Campaign := c.Campaign.map fun F => { F with Time := F.Time + offset } }

/-- `FaultInjectionCampaign.offsetAllFaultsAddressBy` (faultcampaign.py:495-502). -/
def FaultInjectionCampaign.offsetAllFaultsAddressBy
    (c : FaultInjectionCampaign) (offset : Int) : FaultInjectionCampaign :=
  { c with
    InjectionRangeInfo := c.InjectionRangeInfo.map fun fi =>
      { fi with StartAddress := fi.StartAddress + offset,
                EndAddress := fi.EndAddress + offset },
    Campaign := c.Campaign.map fun F =>
      { F with Address := F.Address + offset,
               BPInfo := { F.BPInfo with Address := F.BPInfo.Address + offset } } }

/-- The dict built by `FaultInjectionCampaign.summary` (faultcampaign.py:504-513):
its keys are exactly `Fault.Effects + ['notrun', 'total']`, captured as a
record with one counter per key. -/
structure SummaryStats where
  success : Nat
  crash : Nat
  noeffect : Nat
  caught : Nat
  undecided : Nat
  notrun : Nat
  total : Nat
deriving DecidableEq, Repr

/-- `stats[e] += 1` (faultcampaign.py:510, 512) on the summary dict: increment
the counter at key `e`; a key outside the dict raises `KeyError`. -/
def SummaryStats.incr (s : SummaryStats) (e : String) : Except String SummaryStats :=
  if e = "success" then .ok { s with success := s.success + 1 }
  else if e = "crash" then .ok { s with crash := s.crash + 1 }
  else if e = "noeffect" then .ok { s with noeffect := s.noeffect + 1 }
  else if e = "caught" then .ok { s with caught := s.caught + 1 }
  else if e = "undecided" then .ok { s with undecided := s.undecided + 1 }
  else if e = "notrun" then .ok { s with notrun := s.notrun + 1 }
  else if e = "total" then .ok { s with total := s.total + 1 }
  else .error ("KeyError: " ++ e)

/-- The `for F in self.Campaign` loop of `summary` (faultcampaign.py:508-512):
a truthy `Effect` (a non-`None`, non-empty string) bumps its own bucket,
anything else bumps `notrun`. -/
def summaryLoop : List Fault → SummaryStats → Except String SummaryStats
  | [], s => .ok s
  | F :: rest, s =>
    match (match F.Effect with
           | some e => if e.isEmpty then s.incr "notrun" else s.incr e
           | none => s.incr "notrun") with
    | .ok s2 => summaryLoop rest s2
    | .error m => .error m

/-- `FaultInjectionCampaign.summary` (faultcampaign.py:504-513): all counters
start at zero, `total` is pre-charged with `getNumFaults()`, then the fault
loop runs. -/
def FaultInjectionCampaign.summary (c : FaultInjectionCampaign) :
    Except String SummaryStats :=
  summaryLoop c.Campaign
    { success := 0, crash := 0, noeffect := 0, caught := 0, undecided := 0,
      notrun := 0, total := c.getNumFaults }

/-- The sum of all per-effect buckets of the summary, `notrun` included and
`total` excluded. -/
def SummaryStats.bucketSum (s : SummaryStats) : Nat :=
  s.success + s.crash + s.noeffect + s.caught + s.undecided + s.notrun

/-! ## The campaign maintenance CLI (campaign.py) -/

/-- The `for F in options.campaign_files` loop of `main` (campaign.py:69-94),
restricted to its effect on `ExitValue`: a file whose
`FaultInjectionCampaign(F)` construction raises an exception sets
`ExitValue = 1`; the per-file actions (offsets, summary printing, save) never
touch `ExitValue`.  Each list entry is the parse outcome for one file. -/
def campaignMainLoop : List (Except String FaultInjectionCampaign) → Int → Int
  | [], ExitValue => ExitValue
  | r :: rest, ExitValue =>
    match r with
    | .error _ => campaignMainLoop rest 1
    | .ok _ => campaignMainLoop rest ExitValue

/-- The value `main` returns (campaign.py:69, 77, 96), which the process exits
with (campaign.py:99-100). -/
def campaignMainExitValue (files : List (Except String FaultInjectionCampaign)) : Int :=
  campaignMainLoop files 0

/-! ## The fallback classification of `FaultInjectionBaseDriver.runModel`
(run_model.py:883-900) -/

/-- The public attribute names (properties and methods) that the class
`FaultInjectionCampaign` defines (faultcampaign.py:438-534). -/
def faultInjectionCampaignAttributes : List String :=
  ["Filename", "Image", "ReferenceTrace", "MaxTraceTime", "ProgramEntryAddress",
   "ProgramEndAddress", "FaultModel", "InjectionRangeInfo", "Campaign",
   "getNumFaults", "getFault", "Oracle", "allFaults", "offsetAllFaultsTimeBy",
   "offsetAllFaultsAddressBy", "summary", "saveToFile"]

/-- The campaign attribute the fallback-classification loop dereferences:
`for F in self.Dispatcher.Campaign.FunctionInfo` (run_model.py:887). -/
def runModelFallbackWindowsAttribute : String := "FunctionInfo"

/-- The fallback classification loop (run_model.py:885-900) as it would
execute if the windows attribute resolved to a list of `InjectionRangeInfo`:
the first window whose `isInCallTree` contains the final program counter
classifies the fault `"undecided"`; if no window does, `"crash"`. -/
def fallbackClassify : List InjectionRangeInfo → Int → String
  | [], _ => "crash"
  | F :: rest, pc =>
    if F.isInCallTree pc then "undecided" else fallbackClassify rest pc

/-! ## `IrisDriver` memory accesses and `InstructionSkipDriver.inject`
(run_model.py) -/

/-- The observable state of the simulated target at a stop: its byte memory
and program counter. -/
structure TargetState where
  mem : Int → Int
  pc : Int

/-- `IrisDriver.readMemHalf` (run_model.py:534-536): little-endian two-byte
read (`struct '<H'`) masked with `& 0x0FFFF`; Python `&` of a mask on an int
is Euclidean `%`. -/
def IrisDriver.readMemHalf (st : TargetState) (addr : Int) : Int :=
  (st.mem addr + 256 * st.mem (addr + 1)) % 65536

/-- `IrisDriver.readMemWord` (run_model.py:538-547): little-endian four-byte
read; with `swap_halves` the result is
`((v & 0xFFFF) << 16) | ((v >> 16) & 0xFFFF)` (the two 16-bit fields are
disjoint, so `|` is `+`; Python `>>` is floor division, i.e. `Int.ediv`),
otherwise `v & 0xFFFFFFFF`. -/
def IrisDriver.readMemWord (st : TargetState) (addr : Int) (swapHalves : Bool) : Int :=
  let v := st.mem addr + 256 * st.mem (addr + 1)
           + 65536 * st.mem (addr + 2) + 16777216 * st.mem (addr + 3)
  if swapHalves then (v % 65536) * 65536 + (Int.ediv v 65536) % 65536
  else v % 4294967296

/-- A write operation issued to the target by a driver. -/
inductive TargetOp where
  | writeMemHalf (addr : Int) (value : Int)
  | writePC (pc : Int)
deriving DecidableEq, Repr

/-- `IrisDriver.writeMemHalf` (run_model.py:552-554): the value is packed as
`value & 0x0FFFF`. -/
def IrisDriver.writeMemHalfOp (addr value : Int) : TargetOp :=
  .writeMemHalf addr (value % 65536)

/-- `IrisDriver.writeMemWord` with `swap_halves=True` (run_model.py:556-563):
`writeMemHalf(addr + 2, value & 0xFFFF)` then
`writeMemHalf(addr, (value >> 16) & 0xFFFF)`. -/
def IrisDriver.writeMemWordSwappedOps (addr value : Int) : List TargetOp :=
  [IrisDriver.writeMemHalfOp (addr + 2) value,
   IrisDriver.writeMemHalfOp addr (Int.ediv value 65536)]

/-- The live-instruction read of `InstructionSkipDriver.inject`
(run_model.py:953-958): a 16-bit half-word at the program counter when
`Width == 16`, otherwise a 32-bit word with its half-words swapped. -/
def liveInstruction (TheFault : Fault) (st : TargetState) : Int :=
  if TheFault.Width = 16 then IrisDriver.readMemHalf st st.pc
  else IrisDriver.readMemWord st st.pc true

/-- `InstructionSkipDriver.inject` (run_model.py:947-969), given the target
state reached by `runToInjectionPoint` (the run to the injection point talks
to the live simulator and is not further modelled): assert the fault is an
`InstructionSkip`, read the live instruction at the program counter, `die` on
a mismatch with the recorded `Instruction`, and only on a match write
`FaultedInstr` (with the width and half-word convention of the read) followed
by the `simulation_barrier` PC rewrite (run_model.py:516-518).  Returned are
the write operations issued, in order, and the `die`/success outcome. -/
def InstructionSkipDriver.inject (TheFault : Fault) (st : TargetState) :
    List TargetOp × Except String Unit :=
  match TheFault.Variant with
  | .corruptRegDef _ => ([], .error "Expecting an InstructionSkip as the fault parameter")
  | .instructionSkip _ FaultedInstr =>
    if TheFault.Instruction ≠ liveInstruction TheFault st then
      ([], .error "Error ! There is a mismatch for fault id")
    else
      ((if TheFault.Width = 16
        then [IrisDriver.writeMemHalfOp TheFault.Address FaultedInstr]
        else IrisDriver.writeMemWordSwappedOps TheFault.Address FaultedInstr)
       ++ [TargetOp.writePC st.pc], .ok ())

/-! ## The persisted textual dump (`__repr__` / `saveToFile`) and its reload

`FaultInjectionCampaign.saveToFile` (faultcampaign.py:532-534) writes
`"{}".format(self)`, i.e. the `__repr__` text, to the destination file, while
loading parses a structured YAML document (faultcampaign.py:417-436).  The
definitions below embed the `__repr__` fragment for classifiers and the
reload of that fragment. -/

/-- `Classification.__repr__` (faultcampaign.py:151-152):
`"\"{}\",[]".format(self.__Kind)`. -/
def Classification.reprStr (C : Classification) : String :=
  "\"" ++ C.Kind ++ "\",[]"

/-- `ClassificationExpr.__repr__` (faultcampaign.py:171-175): the term reprs
joined with `", "`, inside one pair of brackets. -/
def ClassificationExpr.reprStr (cs : List Classification) : String :=
  "[" ++ String.intercalate ", " (cs.map Classification.reprStr) ++ "]"

/-- Python `"{:x}".format(n)`: lowercase hexadecimal digits, minus sign for
negative values. -/
def formatHex (n : Int) : String :=
  if n < 0 then "-" ++ String.mk (Nat.toDigits 16 (-n).toNat)
  else String.mk (Nat.toDigits 16 n.toNat)

/-- The text of the `Classification` value inside a saved classifier entry:
the `"Classification: [{}]"` field of `Classifier.__repr__`
(faultcampaign.py:193). -/
def Classifier.savedClassificationText (C : Classifier) : String :=
  "[" ++ ClassificationExpr.reprStr C.ClassificationExpr ++ "]"

/-- `Classifier.__repr__` (faultcampaign.py:191-194). -/
def Classifier.reprStr (C : Classifier) : String :=
  "\x7b " ++ "Pc: 0x" ++ formatHex C.Pc ++ ", "
       ++ "Classification: " ++ Classifier.savedClassificationText C ++ "\x7d"

/-- A structured (flow-style YAML) value: the fragment the persisted
classifier text uses — double-quoted strings and bracketed lists. -/
inductive YVal where
  | str (s : String) : YVal
  | list (xs : List YVal) : YVal

/-- Collect the characters of a double-quoted string literal up to the closing
quote (the dump never emits escapes inside classifier kinds). -/
def parseStringChars : List Char → Option (List Char × List Char)
  | [] => none
  | c :: rest =>
    if c = '"' then some ([], rest)
    else
      match parseStringChars rest with
      | some (s, r) => some (c :: s, r)
      | none => none

/-- Skip blanks between flow tokens. -/
def skipBlanks (cs : List Char) : List Char :=
  cs.dropWhile (fun c => c = ' ')

mutual

/-- Modelled from the spec: the campaign file is a "structured document"
parsed by a YAML loader (the loader itself is library code, not part of this
repository).  `parseYVal` parses one flow-style value — a double-quoted
string or a `[...]` list of comma-separated values — returning the value and
the remaining input; the fuel bounds recursion depth. -/
def parseYVal : Nat → List Char → Option (YVal × List Char)
  | 0, _ => none
  | fuel + 1, cs =>
    match skipBlanks cs with
    | '"' :: rest =>
      match parseStringChars rest with
      | some (s, r) => some (.str (String.mk s), r)
      | none => none
    | '[' :: rest =>
      match skipBlanks rest with
      | ']' :: r2 => some (.list [], r2)
      | r2 => parseYElems fuel r2 []
    | _ => none

/-- The comma-separated elements of a flow list, after its `[`. -/
def parseYElems : Nat → List Char → List YVal → Option (YVal × List Char)
  | 0, _, _ => none
  | fuel + 1, cs, acc =>
    match parseYVal fuel cs with
    | none => none
    | some (v, r) =>
      match skipBlanks r with
      | ',' :: r2 => parseYElems fuel r2 (v :: acc)
      | ']' :: r2 => some (.list (v :: acc).reverse, r2)
      | _ => none

end

/-- Parse a complete flow document: one value with nothing but blanks after. -/
def parseYDoc (text : String) : Option YVal :=
  match parseYVal (2 * text.length + 4) text.toList with
  | some (v, r) => if (skipBlanks r).isEmpty then some v else none
  | none => none

/-- One term of `ClassificationExpr.__init__` (faultcampaign.py:158-163) as it
executes on a dynamically-typed parsed value `C`: `C[0]` and `C[1]` are
positional indexings (a missing index raises `IndexError`), `C[0]` is tested
against the four known kind strings, and `len(C[1])` must be zero.  Indexing
a string yields one-character strings, which are never known kinds. -/
def loadClassificationTermY : YVal → Except String String
  | .str s =>
    if s.isEmpty then .error "IndexError"
    else .error "is not a known Classification term"
  | .list es =>
    match es.get? 0, es.get? 1 with
    | some C0, some C1 =>
      match C0 with
      | .str k =>
        if k ∉ classificationKinds then .error "is not a known Classification term"
        else
          match C1 with
          | .list xs =>
            if xs.length ≠ 0 then .error "Checkers are not supported (yet) in Classifications."
            else .ok k
          | .str t =>
            if t.length ≠ 0 then .error "Checkers are not supported (yet) in Classifications."
            else .ok k
      | .list _ => .error "is not a known Classification term"
    | _, _ => .error "IndexError"

/-- The `for C in CE` loop of `ClassificationExpr.__init__` over a parsed
list, collecting the accepted kinds in order. -/
def loadClassificationListY : List YVal → Except String (List String)
  | [] => .ok []
  | C :: rest =>
    match loadClassificationTermY C with
    | .ok k =>
      match loadClassificationListY rest with
      | .ok ks => .ok (k :: ks)
      | .error m => .error m
    | .error m => .error m

/-- `ClassificationExpr.__init__` on a dynamically-typed parsed value:
iterating a list visits its elements; iterating a string visits its
one-character substrings (each failing the kind test). -/
def loadClassificationExprY : YVal → Except String (List String)
  | .list es => loadClassificationListY es
  | .str s => if s.isEmpty then .ok [] else .error "is not a known Classification term"

/-- Reload the `Classification` value of a persisted classifier entry: parse
the flow text as the structured loader would, then run the
`ClassificationExpr` constructor on the parsed value. -/
def reloadClassificationText (text : String) : Except String (List String) :=
  match parseYDoc text with
  | some v => loadClassificationExprY v
  | none => .error "parse error"

/-! ## Concrete campaigns used by the counterexamples and witnesses -/

/-- A concrete `InstructionSkip` fault (instruction `0x4770`, replacement
`0xbf00`), parameterised by its `Id`. -/
def sampleFault (id : Int) : Fault :=
  { Id := id, Time := 100 + id, Address := 32768 + 2 * id, Width := 16,
    BPInfo := { Address := 32768 + 2 * id, Count := 0 },
    Instruction := 18288, Disassembly := "BX lr", Effect := none,
    Variant := .instructionSkip 1 48896 }

/-- A loaded two-fault campaign whose fault sequence is NOT ordered by `Id`:
position 0 holds the fault declaring `Id = 1`, position 1 the fault declaring
`Id = 0`. -/
def campaignIdSwapped : FaultInjectionCampaign :=
  { Image := "image.elf", ReferenceTrace := "ref.trace", MaxTraceTime := 1000,
    ProgramEntryAddress := 32768, ProgramEndAddress := 33024,
    FaultModel := "InstructionSkip",
    InjectionRangeInfo :=
      [{ Name := "main", StartTime := 0, EndTime := 1000,
         StartAddress := 32768, EndAddress := 33024 }],
    Oracle := [{ Pc := 33000, ClassificationExpr := [Classification.mk "success"] }],
    Campaign := [sampleFault 1, sampleFault 0] }

/-! ## Theorems -/

/-- **C1** (code-bug evidence): `getFault` indexes the `Campaign` sequence by
position (`self.__Campaign[Id]`), so on a loaded campaign whose fault with
`Id = 0` sits at position 1, `getFault 0` returns the fault declaring
`Id = 1` even though a fault declaring `Id = 0` is present — the claimed
lookup by declared `Id` field does not hold. -/
theorem getFault_positional_ignores_declared_id :
    ((campaignIdSwapped.getFault 0).map Fault.Id = some 1)
    ∧ (∃ F ∈ campaignIdSwapped.Campaign, F.Id = 0)
    ∧ (some (1 : Int) ≠ some (0 : Int)) := by
  refine ⟨rfl, ⟨sampleFault 0, by decide, by decide⟩, by decide⟩

/-- **C2** (code-bug evidence): `saveToFile` persists the `__repr__` textual
dump, and that dump is not the structured format the loader parses: the
structured form of a classifier with the two classification terms
`noeffect`, `crash` loads with both terms, but its persisted text — the
`Classification` value emitted inside `Classifier.__repr__` — reloads with
only the first term, so saving and re-loading does not preserve the
campaign's semantic content. -/
theorem saveToFile_dump_does_not_roundtrip_classifications :
    (ClassificationExpr.init [("noeffect", ([] : List Unit)), ("crash", [])]
      = .ok [Classification.mk "noeffect", Classification.mk "crash"])
    ∧ (Classifier.reprStr
        { Pc := 4096,
          ClassificationExpr := [Classification.mk "noeffect", Classification.mk "crash"] }
      = "\x7b Pc: 0x1000, Classification: [[\"noeffect\",[], \"crash\",[]]]\x7d")
    ∧ (Classifier.savedClassificationText
        { Pc := 4096,
          ClassificationExpr := [Classification.mk "noeffect", Classification.mk "crash"] }
      = "[[\"noeffect\",[], \"crash\",[]]]")
    ∧ (reloadClassificationText "[[\"noeffect\",[], \"crash\",[]]]" = .ok ["noeffect"])
    ∧ (["noeffect"] ≠ ["noeffect", "crash"]) :=
  ⟨rfl, rfl, rfl, rfl, by decide⟩

/-- **C3** (code-bug evidence): the fallback classification loop of
`runModel` dereferences the campaign attribute `FunctionInfo`, which the
`FaultInjectionCampaign` class does not define (its windows list is the
`InjectionRangeInfo` property), so reaching the fallback raises
`AttributeError` and sets no Effect; had the attribute resolved to the
campaign's `InjectionRangeInfo` list, the loop would classify `"undecided"`
exactly when some declared window satisfies
`StartAddress <= pc <= EndAddress` and `"crash"` otherwise. -/
theorem runModel_fallback_attribute_mismatch :
    (runModelFallbackWindowsAttribute ∉ faultInjectionCampaignAttributes)
    ∧ ("InjectionRangeInfo" ∈ faultInjectionCampaignAttributes)
    ∧ (∀ (ws : List InjectionRangeInfo) (pc : Int),
        fallbackClassify ws pc
          = if ws.any (fun F => F.isInCallTree pc) then "undecided" else "crash") := by
  refine ⟨by decide, by decide, ?_⟩
  intro ws pc
  induction ws with
  | nil => simp [fallbackClassify]
  | cons F rest ih =>
    by_cases h : F.isInCallTree pc
    · simp [fallbackClassify, h]
    · simp [fallbackClassify, h, ih]

/-- **C4** counterexample: a campaign-maintenance CLI invocation over two
files that both fail to parse exits with value 1, not 2 — the exit code does
not equal the number of unparsable files. -/
theorem campaign_cli_exit_value_not_failure_count :
    campaignMainExitValue [Except.error "file1", Except.error "file2"] = 1
    ∧ (1 : Int) ≠ 2 :=
  ⟨rfl, by decide⟩

/-- The ExitValue loop from any starting accumulator: any parse failure in
the list forces 1, otherwise the accumulator is returned. -/
theorem campaignMainLoop_eq_ite (files : List (Except String FaultInjectionCampaign))
    (a : Int) :
    campaignMainLoop files a
      = if files.any (fun r => match r with | .error _ => true | .ok _ => false)
        then 1 else a := by
  induction files generalizing a with
  | nil => simp [campaignMainLoop]
  | cons r rest ih =>
    cases r with
    | error m => simp [campaignMainLoop, ih]
    | ok c => simp [campaignMainLoop, ih]

/-- **C4** amended: for every invocation of the campaign maintenance CLI over
a list of campaign files, the process exit code is 1 when at least one file
failed to parse, and 0 otherwise. -/
theorem campaign_cli_exit_value_flags_any_failure
    (files : List (Except String FaultInjectionCampaign)) :
    campaignMainExitValue files
      = if files.any (fun r => match r with | .error _ => true | .ok _ => false)
        then 1 else 0 :=
  campaignMainLoop_eq_ite files 0

/-- `stats['notrun'] += 1` always succeeds: `notrun` is a key of the summary
dict. -/
theorem SummaryStats.incr_notrun (s : SummaryStats) :
    s.incr "notrun" = .ok { s with notrun := s.notrun + 1 } :=
  rfl

/-- Incrementing the bucket of a valid effect succeeds, keeps `total`, and
grows the bucket sum by one. -/
theorem SummaryStats.incr_valid_effect (s : SummaryStats) (e : String)
    (he : e ∈ Fault.Effects) :
    ∃ s2, s.incr e = .ok s2 ∧ s2.total = s.total
      ∧ s2.bucketSum = s.bucketSum + 1 := by
  fin_cases he <;>
    exact ⟨_, rfl, rfl, by simp only [SummaryStats.bucketSum]; omega⟩

/-- A valid effect string is non-empty (hence truthy in Python). -/
theorem effect_not_isEmpty (e : String) (he : e ∈ Fault.Effects) :
    e.isEmpty = false := by
  fin_cases he <;> rfl

/-- One iteration of the summary loop on a fault with a valid (or unset)
effect succeeds, keeps `total`, and grows the bucket sum by one. -/
theorem summaryStep_ok (s : SummaryStats) (F : Fault)
    (h : ∀ e, F.Effect = some e → e ∈ Fault.Effects) :
    ∃ s2, (match F.Effect with
           | some e => if e.isEmpty then s.incr "notrun" else s.incr e
           | none => s.incr "notrun") = .ok s2
      ∧ s2.total = s.total ∧ s2.bucketSum = s.bucketSum + 1 := by
  cases hEff : F.Effect with
  | none =>
    exact ⟨_, SummaryStats.incr_notrun s, rfl,
           by simp only [SummaryStats.bucketSum]; omega⟩
  | some e =>
    have he := h e hEff
    simp only [effect_not_isEmpty e he, Bool.false_eq_true, if_false]
    exact s.incr_valid_effect e he

/-- The summary loop over faults with valid effects succeeds, keeps `total`,
and adds the number of faults to the bucket sum. -/
theorem summaryLoop_ok (faults : List Fault) (s : SummaryStats)
    (h : ∀ F ∈ faults, ∀ e, F.Effect = some e → e ∈ Fault.Effects) :
    ∃ s2, summaryLoop faults s = .ok s2 ∧ s2.total = s.total
      ∧ s2.bucketSum = s.bucketSum + faults.length := by
  induction faults generalizing s with
  | nil => exact ⟨s, rfl, rfl, by simp⟩
  | cons F rest ih =>
    obtain ⟨s1, hstep, ht1, hb1⟩ := summaryStep_ok s F (h F (by simp))
    obtain ⟨s2, hloop, ht2, hb2⟩ := ih s1 (fun G hG => h G (by simp [hG]))
    refine ⟨s2, ?_, by omega, by simp [hb2, hb1]; omega⟩
    simpa [summaryLoop, hstep] using hloop

/-- **C5**: for every loaded campaign (all set effects drawn from
`Fault.Effects`, as the loader guarantees), `summary()` succeeds, its `total`
bucket equals the number of faults in the `Campaign` sequence, and `total`
equals the sum of all per-effect buckets including `notrun`. -/
theorem summary_total_eq_bucket_sum (c : FaultInjectionCampaign)
    (h : ∀ F ∈ c.Campaign, ∀ e, F.Effect = some e → e ∈ Fault.Effects) :
    ∃ s, c.summary = .ok s ∧ s.total = c.getNumFaults
      ∧ s.total = s.bucketSum := by
  obtain ⟨s, hs, ht, hb⟩ := summaryLoop_ok c.Campaign
    { success := 0, crash := 0, noeffect := 0, caught := 0, undecided := 0,
      notrun := 0, total := c.getNumFaults } h
  refine ⟨s, hs, ht, ?_⟩
  simp only [SummaryStats.bucketSum, FaultInjectionCampaign.getNumFaults] at ht hb ⊢
  omega

/-- A loaded six-fault campaign with effects
`[caught, crash, noeffect, unset, success, success]` (the spec's end-to-end
scenario). -/
def campaignSixFaults : FaultInjectionCampaign :=
  { campaignIdSwapped with
    Campaign :=
      [{ sampleFault 0 with Effect := some "caught" },
       { sampleFault 1 with Effect := some "crash" },
       { sampleFault 2 with Effect := some "noeffect" },
       { sampleFault 3 with Effect := none },
       { sampleFault 4 with Effect := some "success" },
       { sampleFault 5 with Effect := some "success" }] }

/-- **C5** witness: the six-fault scenario campaign satisfies the summary
property. -/
theorem summary_total_eq_bucket_sum_witness :
    (∀ F ∈ campaignSixFaults.Campaign, ∀ e, F.Effect = some e → e ∈ Fault.Effects)
    ∧ ∃ s, campaignSixFaults.summary = .ok s
      ∧ s.total = campaignSixFaults.getNumFaults ∧ s.total = s.bucketSum :=
  ⟨by decide, summary_total_eq_bucket_sum campaignSixFaults (by decide)⟩

/-- **C6**: applying `offsetAllFaultsTimeBy a` then `offsetAllFaultsTimeBy b`
yields exactly the campaign produced by `offsetAllFaultsTimeBy (a + b)` from
the original state (in particular the same `Fault.Time` and
`InjectionRangeInfo` `StartTime`/`EndTime` values), and a time offset changes
no address field (fault addresses, breakpoint addresses, range
start/end addresses are untouched). -/
theorem offsetAllFaultsTimeBy_compose_and_preserves_addresses
    (c : FaultInjectionCampaign) (a b : Int) :
    ((c.offsetAllFaultsTimeBy a).offsetAllFaultsTimeBy b
        = c.offsetAllFaultsTimeBy (a + b))
    ∧ ((c.offsetAllFaultsTimeBy a).Campaign.map Fault.Address
        = c.Campaign.map Fault.Address)
    ∧ ((c.offsetAllFaultsTimeBy a).Campaign.map (fun F => F.BPInfo.Address)
        = c.Campaign.map (fun F => F.BPInfo.Address))
    ∧ ((c.offsetAllFaultsTimeBy a).InjectionRangeInfo.map InjectionRangeInfo.StartAddress
        = c.InjectionRangeInfo.map InjectionRangeInfo.StartAddress)
    ∧ ((c.offsetAllFaultsTimeBy a).InjectionRangeInfo.map InjectionRangeInfo.EndAddress
        = c.InjectionRangeInfo.map InjectionRangeInfo.EndAddress) := by
  obtain ⟨Im, RT, MT, PEn, PEx, FM, rs, os, fs⟩ := c
  refine ⟨?_, ?_, ?_, ?_, ?_⟩ <;>
    simp only [FaultInjectionCampaign.offsetAllFaultsTimeBy, List.map_map,
      FaultInjectionCampaign.mk.injEq, true_and, and_true] <;>
    constructor <;>
    refine List.map_congr_left fun x _ => ?_ <;>
    simp [Function.comp, add_assoc]

/-- **C7**: `offsetAllFaultsAddressBy Δ` adds exactly `Δ` to every
`Fault.Address`, every fault's `BreakpointInfo.Address` and every
`InjectionRangeInfo` `StartAddress`/`EndAddress`, while every `Time` field
(fault times, range start/end times) and every `Fault.Id` keeps its prior
value. -/
theorem offsetAllFaultsAddressBy_shifts_addresses_only
    (c : FaultInjectionCampaign) (Δ : Int) :
    ((c.offsetAllFaultsAddressBy Δ).Campaign.map Fault.Address
        = c.Campaign.map (fun F => F.Address + Δ))
    ∧ ((c.offsetAllFaultsAddressBy Δ).Campaign.map (fun F => F.BPInfo.Address)
        = c.Campaign.map (fun F => F.BPInfo.Address + Δ))
    ∧ ((c.offsetAllFaultsAddressBy Δ).InjectionRangeInfo.map InjectionRangeInfo.StartAddress
        = c.InjectionRangeInfo.map (fun r => r.StartAddress + Δ))
    ∧ ((c.offsetAllFaultsAddressBy Δ).InjectionRangeInfo.map InjectionRangeInfo.EndAddress
        = c.InjectionRangeInfo.map (fun r => r.EndAddress + Δ))
    ∧ ((c.offsetAllFaultsAddressBy Δ).Campaign.map Fault.Time
        = c.Campaign.map Fault.Time)
    ∧ ((c.offsetAllFaultsAddressBy Δ).Campaign.map Fault.Id
        = c.Campaign.map Fault.Id)
    ∧ ((c.offsetAllFaultsAddressBy Δ).InjectionRangeInfo.map InjectionRangeInfo.StartTime
        = c.InjectionRangeInfo.map InjectionRangeInfo.StartTime)
    ∧ ((c.offsetAllFaultsAddressBy Δ).InjectionRangeInfo.map InjectionRangeInfo.EndTime
        = c.InjectionRangeInfo.map InjectionRangeInfo.EndTime) := by
  refine ⟨?_, ?_, ?_, ?_, ?_, ?_, ?_, ?_⟩ <;>
    simp only [FaultInjectionCampaign.offsetAllFaultsAddressBy, List.map_map] <;>
    exact List.map_congr_left fun x _ => rfl

/-- **C8**: the oracle's evaluation implements first-match semantics: for any
term list accepted by the `ClassificationExpr` constructor and any valuation
of the Check predicates, `eval` returns the Kind of the first term, in
declared order, whose (necessarily empty, hence always satisfied) Check
predicate set holds, and `"undecided"` when the term list is empty or no
term matches. -/
theorem classificationExpr_eval_first_match {α : Type} (holds : α → Bool)
    (ts : List (String × List α)) (cs : List Classification)
    (h : ClassificationExpr.init ts = .ok cs) :
    ClassificationExpr.eval cs
      = match ts.find? (fun t => t.2.all holds) with
        | some t => t.1
        | none => "undecided" := by
  induction ts generalizing cs with
  | nil =>
    simp only [ClassificationExpr.init, Except.ok.injEq] at h
    subst h
    rfl
  | cons C rest ih =>
    simp only [ClassificationExpr.init] at h
    split at h
    · simp at h
    · split at h
      next hlen =>
        simp at h
      next hlen =>
        cases hrest : ClassificationExpr.init (α := α) rest with
        | error m => rw [hrest] at h; simp at h
        | ok cs' =>
          rw [hrest] at h
          simp only [Except.ok.injEq] at h
          subst h
          have hC2 : C.2 = [] := List.length_eq_zero.mp (not_not.mp hlen)
          rw [List.find?_cons_of_pos _ (by simp [hC2])]
          rfl

/-- **C8** witness: a one-term classification expression built by the
constructor evaluates to that term's kind, which is the first-match result. -/
theorem classificationExpr_eval_first_match_witness :
    (ClassificationExpr.init [("success", ([] : List Unit))]
      = .ok [Classification.mk "success"])
    ∧ ClassificationExpr.eval [Classification.mk "success"]
      = match [("success", ([] : List Unit))].find? (fun t => t.2.all (fun _ => true)) with
        | some t => t.1
        | none => "undecided" :=
  ⟨rfl, classificationExpr_eval_first_match (fun _ => true)
    [("success", [])] [Classification.mk "success"] rfl⟩

/-- **C9**: for the InstructionSkip fault model, whenever the live
instruction read at the injection point (16-bit half-word, or 32-bit word
with half-words swapped) differs from the fault's recorded pre-fault
`Instruction`, `inject` aborts with the fatal consistency `die` and issues
no write operation: the faulted replacement instruction is never written to
target memory. -/
theorem instructionSkip_inject_aborts_on_mismatch
    (TheFault : Fault) (st : TargetState) (Executed FaultedInstr : Int)
    (hvar : TheFault.Variant = .instructionSkip Executed FaultedInstr)
    (hmm : TheFault.Instruction ≠ liveInstruction TheFault st) :
    (InstructionSkipDriver.inject TheFault st).1 = []
    ∧ ∃ m, (InstructionSkipDriver.inject TheFault st).2 = .error m := by
  simp [InstructionSkipDriver.inject, hvar, hmm]

/-- **C9** witness: a concrete fault whose recorded instruction `0x4770`
disagrees with an all-zero live memory aborts with no write issued. -/
theorem instructionSkip_inject_aborts_on_mismatch_witness :
    ((sampleFault 0).Variant = FaultVariant.instructionSkip 1 48896)
    ∧ ((sampleFault 0).Instruction
        ≠ liveInstruction (sampleFault 0) { mem := fun _ => 0, pc := 32768 })
    ∧ (InstructionSkipDriver.inject (sampleFault 0)
        { mem := fun _ => 0, pc := 32768 }).1 = []
    ∧ ∃ m, (InstructionSkipDriver.inject (sampleFault 0)
        { mem := fun _ => 0, pc := 32768 }).2 = .error m := by
  have hmm : (sampleFault 0).Instruction
      ≠ liveInstruction (sampleFault 0) { mem := fun _ => 0, pc := 32768 } := by
    decide
  exact ⟨rfl, hmm,
    (instructionSkip_inject_aborts_on_mismatch (sampleFault 0) _ 1 48896 rfl hmm).1,
    (instructionSkip_inject_aborts_on_mismatch (sampleFault 0) _ 1 48896 rfl hmm).2⟩

/-- A term list with a non-empty Check set makes the `ClassificationExpr`
constructor die. -/
theorem classificationExpr_init_error_of_nonempty_check {α : Type}
    (ts : List (String × List α)) (h : ∃ t ∈ ts, t.2 ≠ []) :
    ∃ m, ClassificationExpr.init ts = .error m := by
  induction ts with
  | nil => simp at h
  | cons C rest ih =>
    simp only [ClassificationExpr.init]
    by_cases hk : C.1 ∉ classificationKinds
    · exact ⟨_, by rw [if_pos hk]⟩
    · rw [if_neg hk]
      by_cases hlen : C.2.length ≠ 0
      · exact ⟨_, by rw [if_pos hlen]⟩
      · rw [if_neg hlen]
        have hC2 : C.2 = [] := List.length_eq_zero.mp (not_not.mp hlen)
        obtain ⟨t, hmem, hne⟩ := h
        rcases List.mem_cons.mp hmem with hEq | hmem2
        · subst hEq; exact absurd hC2 hne
        · obtain ⟨m, hm⟩ := ih ⟨t, hmem2, hne⟩
          exact ⟨m, by rw [hm]⟩

/-- A successful `ClassificationExpr` construction implies all Check sets
were empty. -/
theorem classificationExpr_init_ok_all_empty {α : Type}
    (ts : List (String × List α)) (cs : List Classification)
    (h : ClassificationExpr.init ts = .ok cs) :
    ∀ t ∈ ts, t.2 = [] := by
  induction ts generalizing cs with
  | nil => simp
  | cons C rest ih =>
    simp only [ClassificationExpr.init] at h
    split at h
    · simp at h
    · split at h
      next hlen => simp at h
      next hlen =>
        cases hrest : ClassificationExpr.init (α := α) rest with
        | error m => rw [hrest] at h; simp at h
        | ok cs' =>
          intro t ht
          rcases List.mem_cons.mp ht with hEq | hm
          · subst hEq; exact List.length_eq_zero.mp (not_not.mp hlen)
          · exact ih cs' hrest t hm

/-- A classifier list with a non-empty Check set somewhere makes the Oracle
constructor die. -/
theorem oracle_init_error_of_nonempty_check {α : Type}
    (ys : List (ClassifierData α))
    (h : ∃ cl ∈ ys, ∃ t ∈ cl.Classification, t.2 ≠ []) :
    ∃ m, Oracle.init ys = .error m := by
  induction ys with
  | nil => simp at h
  | cons C rest ih =>
    cases hC : Classifier.init C with
    | error m => exact ⟨m, by simp [Oracle.init, hC]⟩
    | ok c =>
      have hall : ∀ t ∈ C.Classification, t.2 = [] := by
        unfold Classifier.init at hC
        cases hCE : ClassificationExpr.init (α := α) C.Classification with
        | error m => rw [hCE] at hC; simp at hC
        | ok cs => exact classificationExpr_init_ok_all_empty _ cs hCE
      obtain ⟨cl, hcl, t, ht, hne⟩ := h
      rcases List.mem_cons.mp hcl with hEq | hm
      · subst hEq; exact absurd (hall t ht) hne
      · obtain ⟨m, hm2⟩ := ih ⟨cl, hm, t, ht, hne⟩
        exact ⟨m, by simp [Oracle.init, hC, hm2]⟩

/-- A successful Oracle construction implies every classifier's every Check
set was empty. -/
theorem oracle_init_ok_all_empty {α : Type}
    (ys : List (ClassifierData α)) (os : List Classifier)
    (h : Oracle.init ys = .ok os) :
    ∀ cl ∈ ys, ∀ t ∈ cl.Classification, t.2 = [] := by
  induction ys generalizing os with
  | nil => simp
  | cons C rest ih =>
    simp only [Oracle.init] at h
    cases hC : Classifier.init (α := α) C with
    | error m => rw [hC] at h; simp at h
    | ok c =>
      rw [hC] at h
      cases hrest : Oracle.init (α := α) rest with
      | error m => rw [hrest] at h; simp at h
      | ok os2 =>
        have hall : ∀ t ∈ C.Classification, t.2 = [] := by
          unfold Classifier.init at hC
          cases hCE : ClassificationExpr.init (α := α) C.Classification with
          | error m => rw [hCE] at hC; simp at hC
          | ok cs => exact classificationExpr_init_ok_all_empty _ cs hCE
        intro cl hcl
        rcases List.mem_cons.mp hcl with hEq | hm
        · exact hEq ▸ hall
        · exact ih os2 hrest cl hm

/-- **C10**: a classification term carrying a non-empty Check predicate set
makes the campaign load die (the Check hook is rejected at load time, not
ignored or evaluated), so every campaign that loads successfully has only
empty predicate sets in its Oracle. -/
theorem classification_checks_rejected_at_load {α : Type} (y : CampaignData α) :
    ((∃ cl ∈ y.Oracle, ∃ t ∈ cl.Classification, t.2 ≠ []) →
        ∃ m, FaultInjectionCampaign.load y = .error m)
    ∧ (∀ c, FaultInjectionCampaign.load y = .ok c →
        ∀ cl ∈ y.Oracle, ∀ t ∈ cl.Classification, t.2 = []) := by
  constructor
  · intro h
    by_cases hfm : y.FaultModel ∉ ["InstructionSkip", "CorruptRegDef"]
    · refine ⟨"Unsupported fault model in campaign file", ?_⟩
      unfold FaultInjectionCampaign.load
      rw [if_pos hfm]
    · obtain ⟨m, hm⟩ := oracle_init_error_of_nonempty_check y.Oracle h
      refine ⟨m, ?_⟩
      unfold FaultInjectionCampaign.load
      rw [if_neg hfm, hm]
  · intro c hc
    unfold FaultInjectionCampaign.load at hc
    split at hc
    · simp at hc
    · cases hO : Oracle.init (α := α) y.Oracle with
      | error m => rw [hO] at hc; simp at hc
      | ok os => exact oracle_init_ok_all_empty y.Oracle os hO

/-- A campaign document whose single classifier carries one classification
term with a non-empty Check set. -/
def campaignDataBadCheck : CampaignData Unit :=
  { Image := "image.elf", ReferenceTrace := "ref.trace", MaxTraceTime := 1000,
    ProgramEntryAddress := 32768, ProgramEndAddress := 33024,
    FaultModel := "InstructionSkip",
    InjectionRangeInfo := [],
    Oracle := [{ Pc := 33000, Classification := [("success", [()])] }],
    Campaign := [] }

/-- **C10** witness: loading the campaign document with a non-empty Check
set fails. -/
theorem classification_checks_rejected_at_load_witness :
    ∃ m, FaultInjectionCampaign.load campaignDataBadCheck = .error m :=
  (classification_checks_rejected_at_load campaignDataBadCheck).1
    ⟨{ Pc := 33000, Classification := [("success", [()])] },
     by simp [campaignDataBadCheck],
     ("success", [()]), by simp, by simp⟩

end PAF
